import Mathlib

/-!
Shallow embedding of `src/homework.py`, a small fitness tracker: a data model
(`Training` with the three concrete workout variants), the formula library
(distance, mean speed, spent calories), the report formatter (`InfoMessage`
and its message template), and the dispatcher (`read_package` with its two
lookup tables), followed by theorems settling claims C1 to C10.

Python floats are modelled as rationals; decimal literals such as `0.65` and
`1.79` are exact decimal fractions in `ℚ`.  Python's `None` coming out of the
base `Training.get_spent_calories` is modelled with `Option`.  Python
exceptions raised by `read_package` (and by the constructor call inside it)
are modelled with `Except PyError`.
-/

namespace Homework

/-! ### Decimal rendering: the embedding of Python `round` and `format` -/

/-- Decimal digit character for `n < 10`; the fallback branch is unreachable at
every call site (all call sites pass a value reduced mod 10). -/
def digitChar (n : ℕ) : Char :=
  match n with
  | 0 => '0' | 1 => '1' | 2 => '2' | 3 => '3' | 4 => '4'
  | 5 => '5' | 6 => '6' | 7 => '7' | 8 => '8' | 9 => '9'
  | _ => '0'

/-- Digits of `n` in base ten, most significant first, empty for `0`; the
first argument is structural fuel (`n` itself suffices). -/
def natStrAux : ℕ → ℕ → List Char
  | 0, _ => []
  | fuel + 1, n => if n = 0 then [] else natStrAux fuel (n / 10) ++ [digitChar (n % 10)]

/-- Decimal rendering of a natural number. -/
def natStr (n : ℕ) : String :=
  if n = 0 then "0" else ⟨natStrAux n n⟩

/-- Exactly three decimal digits, zero padded on the left: the fractional part
of a `:.3f`-formatted number, for `k < 1000`. -/
def pad3 (k : ℕ) : String :=
  ⟨[digitChar (k / 100 % 10), digitChar (k / 10 % 10), digitChar (k % 10)]⟩

/-- Python's `round` to an integer: round half to even. -/
def pyRound (q : ℚ) : ℤ :=
  let f : ℤ := ⌊q⌋
  let frac : ℚ := q - (f : ℚ)
  if frac < 1 / 2 then f
  else if 1 / 2 < frac then f + 1
  else if f % 2 = 0 then f else f + 1

/-- Python's `round(q, 3)`. -/
def round3 (q : ℚ) : ℚ :=
  (pyRound (q * 1000) : ℚ) / 1000

/-- Python's `'{:.3f}'.format(q)`: the integer part, a dot, then exactly three
decimal digits of the value rounded half-to-even at the third decimal. -/
def fmt3 (q : ℚ) : String :=
  let n : ℤ := pyRound (q * 1000)
  let m : ℕ := n.natAbs
  (if n < 0 then "-" else "") ++ natStr (m / 1000) ++ "." ++ pad3 (m % 1000)

/-- A string formatted to exactly three decimal places: it ends in a dot
followed by a three-character block of fractional digits. -/
def threeDecimals (s : String) : Prop :=
  ∃ a k, k < 1000 ∧ s = a ++ "." ++ pad3 k ∧ (pad3 k).length = 3

/-! ### `InfoMessage` (report formatter) -/

/-- The `InfoMessage` dataclass.  `calories` is an `Option` because
`show_training_info` fills it from `get_spent_calories`, which returns `None`
on the base class (`pass`). -/
structure InfoMessage where
  training_type : String
  duration : ℚ
  distance : ℚ
  speed : ℚ
  calories : Option ℚ
  deriving DecidableEq

/-- `InfoMessage.get_message`: renders `MESSAGE_TEMPLATE` with the record's
fields.  Formatting `None` calories with `:.3f` raises a `TypeError` in
Python, so the rendering is `none` in that case. -/
def InfoMessage.get_message (m : InfoMessage) : Option String :=
  m.calories.map fun c =>
    "Тип тренировки: " ++ m.training_type
      ++ "; Длительность: " ++ fmt3 m.duration
      ++ " ч.; Дистанция: " ++ fmt3 m.distance
      ++ " км; Ср. скорость: " ++ fmt3 m.speed
      ++ " км/ч; Потрачено ккал: " ++ fmt3 c ++ "."

/-! ### The `Training` hierarchy (formula library) -/

/-- Runtime objects of the `Training` class hierarchy: the base class and its
three subclasses `Running`, `SportsWalking`, `Swimming`, each with its
dataclass fields in declaration order. -/
inductive Training where
  | base (action duration weight : ℚ)
  | running (action duration weight : ℚ)
  | sportsWalking (action duration weight height : ℚ)
  | swimming (action duration weight count_pool length_pool : ℚ)
  deriving DecidableEq

namespace Training

/-- Field `action`. -/
def action : Training → ℚ
  | base a _ _ => a
  | running a _ _ => a
  | sportsWalking a _ _ _ => a
  | swimming a _ _ _ _ => a

/-- Field `duration` (hours). -/
def duration : Training → ℚ
  | base _ d _ => d
  | running _ d _ => d
  | sportsWalking _ d _ _ => d
  | swimming _ d _ _ _ => d

/-- Field `weight` (kg). -/
def weight : Training → ℚ
  | base _ _ w => w
  | running _ _ w => w
  | sportsWalking _ _ w _ => w
  | swimming _ _ w _ _ => w

/-- Class attribute `M_IN_KM = 1000`. -/
def M_IN_KM : ℚ := 1000

/-- Class attribute `MIN_IN_H = 60`. -/
def MIN_IN_H : ℚ := 60

/-- Class attribute `LEN_STEP`: `0.65` on the base class (inherited by
`Running` and `SportsWalking`), overridden to `1.38` on `Swimming`. -/
def LEN_STEP : Training → ℚ
  | swimming _ _ _ _ _ => 1.38
  | _ => 0.65

/-- `Training.get_distance`: `self.action * self.LEN_STEP / self.M_IN_KM`,
not overridden by any subclass. -/
def get_distance (t : Training) : ℚ :=
  t.action * t.LEN_STEP / M_IN_KM

/-- `get_mean_speed`: the base class computes
`self.get_distance() / self.duration`; `Swimming` overrides it with
`self.length_pool * self.count_pool / self.M_IN_KM / self.duration`. -/
def get_mean_speed : Training → ℚ
  | swimming _ d _ cp lp => lp * cp / M_IN_KM / d
  | t => t.get_distance / t.duration

end Training

/-- `Running.CALORIES_MEAN_SPEED_MULTIPLIER = 18`. -/
def Running.CALORIES_MEAN_SPEED_MULTIPLIER : ℚ := 18

/-- `Running.CALORIES_MEAN_SPEED_SHIFT = 1.79`. -/
def Running.CALORIES_MEAN_SPEED_SHIFT : ℚ := 1.79

/-- `SportsWalking.CALORIES_WEIGHT_MULTIPLIER = 0.035`. -/
def SportsWalking.CALORIES_WEIGHT_MULTIPLIER : ℚ := 0.035

/-- `SportsWalking.CALORIES_SPEED_HEIGHT_MULTIPLIER = 0.029`. -/
def SportsWalking.CALORIES_SPEED_HEIGHT_MULTIPLIER : ℚ := 0.029

/-- `SportsWalking.CM_IN_M = 100`. -/
def SportsWalking.CM_IN_M : ℚ := 100

/-- `SportsWalking.KMH_IN_MSEC = round(CM_IN_M * 10 / (MIN_IN_H ** 2), 3)`. -/
def SportsWalking.KMH_IN_MSEC : ℚ :=
  round3 (SportsWalking.CM_IN_M * 10 / Training.MIN_IN_H ^ 2)

/-- `Swimming.CALORIES_MEAN_SPEED_SHIFT = 1.1`. -/
def Swimming.CALORIES_MEAN_SPEED_SHIFT : ℚ := 1.1

/-- `Swimming.CALORIES_WEIGHT_MULTIPLIER = 2`. -/
def Swimming.CALORIES_WEIGHT_MULTIPLIER : ℚ := 2

namespace Training

/-- `get_spent_calories`: the base class body is `pass`, i.e. it returns
`None`; each subclass overrides it with its closed-form formula, written
with the class constants of the source. -/
def get_spent_calories : Training → Option ℚ
  | base _ _ _ => none
  | running a d w =>
      some ((Running.CALORIES_MEAN_SPEED_MULTIPLIER
          * (running a d w).get_mean_speed + Running.CALORIES_MEAN_SPEED_SHIFT)
        * w / M_IN_KM * d * MIN_IN_H)
  | sportsWalking a d w h =>
      some ((SportsWalking.CALORIES_WEIGHT_MULTIPLIER * w
          + ((sportsWalking a d w h).get_mean_speed * SportsWalking.KMH_IN_MSEC) ^ 2
            / (h / SportsWalking.CM_IN_M)
            * SportsWalking.CALORIES_SPEED_HEIGHT_MULTIPLIER * w)
        * d * MIN_IN_H)
  | swimming a d w cp lp =>
      some (((swimming a d w cp lp).get_mean_speed + Swimming.CALORIES_MEAN_SPEED_SHIFT)
        * Swimming.CALORIES_WEIGHT_MULTIPLIER * w * d)

/-- `type(self).__name__`: the runtime class name used as the report's
training type. -/
def typeName : Training → String
  | base _ _ _ => "Training"
  | running _ _ _ => "Running"
  | sportsWalking _ _ _ _ => "SportsWalking"
  | swimming _ _ _ _ _ => "Swimming"

/-- `show_training_info`: builds the `InfoMessage` from the class name, the
duration and the three computed metrics. -/
def show_training_info (t : Training) : InfoMessage :=
  ⟨t.typeName, t.duration, t.get_distance, t.get_mean_speed, t.get_spent_calories⟩

end Training

/-! ### Dispatcher -/

/-- Python exceptions that the dispatch path can raise.  `typeError` models
the `TypeError` Python raises when a constructor is called with the wrong
number of positional arguments; it carries the class name, the declared field
count and the number of arguments supplied.  `valueError` models the
`ValueError` of the (unreachable) field-count check. -/
inductive PyError where
  | keyError (msg : String)
  | typeError (cls : String) (expected given : ℕ)
  | valueError (msg : String)
  deriving DecidableEq

/-- `Running(*data)`: positional binding of the readings to the three
inherited dataclass fields; any other arity raises a `TypeError`. -/
def constructRunning : List ℚ → Except PyError Training
  | [a, d, w] => .ok (.running a d w)
  | data => .error (.typeError "Running" 3 data.length)

/-- `SportsWalking(*data)`: positional binding to the four dataclass
fields. -/
def constructSportsWalking : List ℚ → Except PyError Training
  | [a, d, w, h] => .ok (.sportsWalking a d w h)
  | data => .error (.typeError "SportsWalking" 4 data.length)

/-- `Swimming(*data)`: positional binding to the five dataclass fields. -/
def constructSwimming : List ℚ → Except PyError Training
  | [a, d, w, cp, lp] => .ok (.swimming a d w cp lp)
  | data => .error (.typeError "Swimming" 5 data.length)

/-- `COUNT_TYPES`: code to `len(fields(cls))` (3 for `Running`, 4 for
`SportsWalking`, 5 for `Swimming`). -/
def COUNT_TYPES : List (String × ℕ) :=
  [("RUN", 3), ("WLK", 4), ("SWM", 5)]

/-- `TRAIN_CLASS`: code to class; applying the class to the readings is the
constructor call of `read_package`. -/
def TRAIN_CLASS : List (String × (List ℚ → Except PyError Training)) :=
  [("RUN", constructRunning), ("WLK", constructSportsWalking), ("SWM", constructSwimming)]

/-- The Python `str()` rendering of the `TRAIN_CLASS` dictionary, as
interpolated into `error_message_1` by `read_package`. -/
def TRAIN_CLASS_repr : String :=
  "\x7b\x27RUN\x27: <class \x27__main__.Running\x27>, \x27WLK\x27: <class \x27__main__.SportsWalking\x27>, \x27SWM\x27: <class \x27__main__.Swimming\x27>\x7d"

/-- `error_message_1.format(x)`: the template
`'В словаре \x7b\x7d нет такого значения'` with `x` interpolated. -/
def error_message_1 (x : String) : String :=
  "В словаре " ++ x ++ " нет такого значения"

/-- `read_package`: if the code is not a key of `TRAIN_CLASS`, raise a
`KeyError` whose message interpolates the `TRAIN_CLASS` dictionary itself;
otherwise return `TRAIN_CLASS[workout_type](*data)`.  The field-count check
of the source (lines 168 to 171) sits after this unconditional `return` and
is unreachable, so it has no counterpart here. -/
def read_package (workout_type : String) (data : List ℚ) : Except PyError Training :=
  match TRAIN_CLASS.lookup workout_type with
  | none => .error (.keyError (error_message_1 TRAIN_CLASS_repr))
  | some cls => cls data

/-! ### Helper lemmas about the decimal rendering -/

/-- Characters produced by `digitChar` are never a newline. -/
theorem digitChar_ne_newline (n : ℕ) : digitChar n ≠ '\n' := by
  rcases n with _|_|_|_|_|_|_|_|_|_|n
  all_goals first
    | decide
    | exact (by decide : ('0' : Char) ≠ '\n')

/-- Every character of `natStrAux` is some digit character. -/
theorem mem_natStrAux {c : Char} :
    ∀ fuel n : ℕ, c ∈ natStrAux fuel n → ∃ d, c = digitChar d := by
  intro fuel
  induction fuel with
  | zero => intro n h; simp [natStrAux] at h
  | succ fuel ih =>
    intro n h
    simp only [natStrAux] at h
    split at h
    · simp at h
    · rcases List.mem_append.1 h with h1 | h2
      · exact ih _ h1
      · simp only [List.mem_singleton] at h2
        exact ⟨_, h2⟩

/-- The decimal rendering of a natural number contains no newline. -/
theorem natStr_ne_newline (n : ℕ) : '\n' ∉ (natStr n).data := by
  intro h
  rw [natStr] at h
  split at h
  · simp at h
  · rcases mem_natStrAux _ _ h with ⟨d, hd⟩
    exact digitChar_ne_newline d hd.symm

/-- The three padded fractional digits contain no newline. -/
theorem pad3_ne_newline (k : ℕ) : '\n' ∉ (pad3 k).data := by
  intro h
  simp only [pad3, List.mem_cons, List.not_mem_nil, or_false] at h
  rcases h with h | h | h <;> exact digitChar_ne_newline _ h.symm

/-- A `:.3f`-formatted number contains no newline. -/
theorem fmt3_ne_newline (q : ℚ) : '\n' ∉ (fmt3 q).data := by
  intro h
  simp only [fmt3, String.data_append, List.mem_append] at h
  rcases h with ((h | h) | h) | h
  · split at h <;> simp at h
  · exact natStr_ne_newline _ h
  · simp at h
  · exact pad3_ne_newline _ h

/-- `fmt3` always formats to exactly three decimal places. -/
theorem fmt3_threeDecimals (q : ℚ) : threeDecimals (fmt3 q) := by
  refine ⟨(if pyRound (q * 1000) < 0 then "-" else "")
      ++ natStr ((pyRound (q * 1000)).natAbs / 1000),
    (pyRound (q * 1000)).natAbs % 1000, Nat.mod_lt _ (by norm_num), rfl, rfl⟩

/-- A rendered report line contains no newline, whatever its numeric fields,
provided its leading literal does not. -/
theorem msg_ne_newline (lead : String) (hl : '\n' ∉ lead.data) (q1 q2 q3 q4 : ℚ) :
    '\n' ∉ (lead ++ fmt3 q1 ++ " ч.; Дистанция: " ++ fmt3 q2
      ++ " км; Ср. скорость: " ++ fmt3 q3
      ++ " км/ч; Потрачено ккал: " ++ fmt3 q4 ++ ".").data := by
  intro h
  simp only [String.data_append, List.mem_append] at h
  rcases h with ((((((((h | h) | h) | h) | h) | h) | h) | h) | h)
  · exact hl h
  · exact fmt3_ne_newline _ h
  · simp at h
  · exact fmt3_ne_newline _ h
  · simp at h
  · exact fmt3_ne_newline _ h
  · simp at h
  · exact fmt3_ne_newline _ h
  · simp at h

/-! ### Claims -/

/-- C1: the source intends `read_package` to fail with a `ValueError`
(`FieldCountMismatch`) before constructing the record when the reading count
does not match the variant's declared field count.  In the code the check sits
after an unconditional `return`, so for every known code the record is
constructed at once: matching counts bind the readings positionally and return
the record, while mismatched counts (here `"RUN"` with two readings against
the expected field count 3) fail with the constructor's arity `TypeError`,
never with a `ValueError`. -/
theorem C1_read_package_dead_validation :
    (∀ a d w : ℚ, read_package "RUN" [a, d, w] = .ok (.running a d w))
    ∧ (∀ a d w h : ℚ, read_package "WLK" [a, d, w, h] = .ok (.sportsWalking a d w h))
    ∧ (∀ a d w cp lp : ℚ, read_package "SWM" [a, d, w, cp, lp] = .ok (.swimming a d w cp lp))
    ∧ COUNT_TYPES.lookup "RUN" = some 3
    ∧ read_package "RUN" [100, 2] = .error (.typeError "Running" 3 2)
    ∧ (∀ m : String, read_package "RUN" [100, 2] ≠ .error (.valueError m)) := by
  refine ⟨fun a d w => rfl, fun a d w h => rfl, fun a d w cp lp => rfl, rfl, rfl, ?_⟩
  intro m h
  rw [show read_package "RUN" [100, 2] = .error (.typeError "Running" 3 2) from rfl,
    Except.error.injEq] at h
  exact PyError.noConfusion h

/-- C2: for every `SportsWalking` record with positive duration and height,
`get_spent_calories` is
`(0.035 * weight + (mean_speed * 0.278)^2 / (height / 100) * 0.029 * weight) * duration * 60`,
and the km/h to m/s conversion constant `KMH_IN_MSEC` used by the code,
`round(1000 / 3600, 3)`, is exactly `0.278`. -/
theorem C2_sportsWalking_calories (a d w h : ℚ) (hd : 0 < d) (hh : 0 < h) :
    (Training.sportsWalking a d w h).get_spent_calories
      = some ((0.035 * w
          + ((Training.sportsWalking a d w h).get_mean_speed * 0.278) ^ 2
            / (h / 100) * 0.029 * w) * d * 60)
    ∧ SportsWalking.KMH_IN_MSEC = 0.278 := by
  have hk : SportsWalking.KMH_IN_MSEC = 0.278 := by
    norm_num [SportsWalking.KMH_IN_MSEC, round3, pyRound,
      SportsWalking.CM_IN_M, Training.MIN_IN_H]
  refine ⟨?_, hk⟩
  norm_num [Training.get_spent_calories, SportsWalking.CALORIES_WEIGHT_MULTIPLIER,
    SportsWalking.CALORIES_SPEED_HEIGHT_MULTIPLIER, SportsWalking.CM_IN_M,
    Training.M_IN_KM, Training.MIN_IN_H, hk]

/-- C2 witness: the theorem applied at the sample walking package
`("WLK", [9000, 1, 75, 180])`. -/
theorem C2_witness :
    (Training.sportsWalking 9000 1 75 180).get_spent_calories
      = some ((0.035 * 75
          + ((Training.sportsWalking 9000 1 75 180).get_mean_speed * 0.278) ^ 2
            / (180 / 100) * 0.029 * 75) * 1 * 60)
    ∧ SportsWalking.KMH_IN_MSEC = 0.278 :=
  C2_sportsWalking_calories 9000 1 75 180 (by norm_num) (by norm_num)

/-- C3: for every `Running` record with positive duration, `get_spent_calories`
is `(18 * mean_speed + 1.79) * weight / 1000 * duration * 60`, where
`mean_speed` is the record's `get_mean_speed`. -/
theorem C3_running_calories (a d w : ℚ) (hd : 0 < d) :
    (Training.running a d w).get_spent_calories
      = some ((18 * (Training.running a d w).get_mean_speed + 1.79)
          * w / 1000 * d * 60) := by
  norm_num [Training.get_spent_calories, Running.CALORIES_MEAN_SPEED_MULTIPLIER,
    Running.CALORIES_MEAN_SPEED_SHIFT, Training.M_IN_KM, Training.MIN_IN_H]

/-- C3 witness: the theorem applied at the sample running package
`("RUN", [15000, 1, 75])`. -/
theorem C3_witness :
    (Training.running 15000 1 75).get_spent_calories
      = some ((18 * (Training.running 15000 1 75).get_mean_speed + 1.79)
          * 75 / 1000 * 1 * 60) :=
  C3_running_calories 15000 1 75 (by norm_num)

/-- C4: for every `Swimming` record with positive duration,
`get_spent_calories` is `(mean_speed + 1.1) * 2 * weight * duration`, where
`mean_speed` is `Swimming`'s overridden `get_mean_speed`. -/
theorem C4_swimming_calories (a d w cp lp : ℚ) (hd : 0 < d) :
    (Training.swimming a d w cp lp).get_spent_calories
      = some (((Training.swimming a d w cp lp).get_mean_speed + 1.1) * 2 * w * d) := by
  norm_num [Training.get_spent_calories, Swimming.CALORIES_MEAN_SPEED_SHIFT,
    Swimming.CALORIES_WEIGHT_MULTIPLIER]

/-- C4 witness: the theorem applied at the sample swimming package
`("SWM", [720, 1, 80, 25, 40])`. -/
theorem C4_witness :
    (Training.swimming 720 1 80 25 40).get_spent_calories
      = some (((Training.swimming 720 1 80 25 40).get_mean_speed + 1.1) * 2 * 80 * 1) :=
  C4_swimming_calories 720 1 80 25 40 (by norm_num)

/-- C5: for every record of every variant, `get_distance` is
`action * LEN_STEP / 1000` with `LEN_STEP = 0.65` for `Running` and
`SportsWalking` and `LEN_STEP = 1.38` for `Swimming`; in particular every
record constructed by `read_package` from `("RUN", [action, duration, weight])`
with positive duration has distance `action * 0.00065`. -/
theorem C5_distance_formula (a d w h cp lp : ℚ) (hd : 0 < d) :
    (Training.running a d w).get_distance = a * 0.65 / 1000
    ∧ (Training.sportsWalking a d w h).get_distance = a * 0.65 / 1000
    ∧ (Training.swimming a d w cp lp).get_distance = a * 1.38 / 1000
    ∧ ∀ t, read_package "RUN" [a, d, w] = .ok t → t.get_distance = a * 0.00065 := by
  refine ⟨rfl, rfl, rfl, ?_⟩
  intro t ht
  rw [show read_package "RUN" [a, d, w] = .ok (.running a d w) from rfl,
    Except.ok.injEq] at ht
  subst ht
  show a * (0.65 : ℚ) / 1000 = a * 0.00065
  norm_num
  ring

/-- C5 witness: the theorem applied at the sample values `(15000, 1, 75)`
(with arbitrary walking and swimming extras `180, 25, 40`). -/
theorem C5_witness :
    (Training.running 15000 1 75).get_distance = 15000 * 0.65 / 1000
    ∧ (Training.sportsWalking 15000 1 75 180).get_distance = 15000 * 0.65 / 1000
    ∧ (Training.swimming 15000 1 75 25 40).get_distance = 15000 * 1.38 / 1000
    ∧ ∀ t, read_package "RUN" [15000, 1, 75] = .ok t →
        t.get_distance = 15000 * 0.00065 :=
  C5_distance_formula 15000 1 75 180 25 40 (by norm_num)

/-- C6: for every `Swimming` record with positive duration, `get_mean_speed`
is `length_pool * count_pool / 1000 / duration`, and the value does not depend
on `action`: two records agreeing on duration, pool count and pool length but
differing in `action` have the same mean speed. -/
theorem C6_swimming_mean_speed (a₁ a₂ d w cp lp : ℚ) (hd : 0 < d) :
    (Training.swimming a₁ d w cp lp).get_mean_speed = lp * cp / 1000 / d
    ∧ (Training.swimming a₁ d w cp lp).get_mean_speed
      = (Training.swimming a₂ d w cp lp).get_mean_speed :=
  ⟨by norm_num [Training.get_mean_speed, Training.M_IN_KM], rfl⟩

/-- C6 witness: the theorem applied at the sample swimming package, with the
`action` field varied from 720 to 0. -/
theorem C6_witness :
    (Training.swimming 720 1 80 25 40).get_mean_speed = 40 * 25 / 1000 / 1
    ∧ (Training.swimming 720 1 80 25 40).get_mean_speed
      = (Training.swimming 0 1 80 25 40).get_mean_speed :=
  C6_swimming_mean_speed 720 0 1 80 25 40 (by norm_num)

set_option maxRecDepth 10000 in
/-- C7 counterexample: for the unknown code `"XYZ"` the raised `KeyError`'s
payload is `error_message_1` formatted with the `TRAIN_CLASS` dictionary
itself, which does not contain the offending code (`"XYZ"` is not a substring
of it); indeed the error is identical for the distinct unknown code `"ABC"`,
so the payload cannot identify the offending code. -/
theorem C7_counterexample :
    read_package "XYZ" [1, 2, 3]
      = .error (.keyError (error_message_1 TRAIN_CLASS_repr))
    ∧ ¬ ("XYZ".data <:+: (error_message_1 TRAIN_CLASS_repr).data)
    ∧ read_package "XYZ" [1, 2, 3] = read_package "ABC" [1, 2, 3] :=
  ⟨rfl, by decide, rfl⟩

/-- C7 (amended): for every code outside the dispatch table, `read_package`
fails with a `KeyError` (a `LookupError`-kind error) whose message names the
dispatch table of known codes rather than the offending code, and no record is
constructed. -/
theorem C7_unknown_code (code : String) (data : List ℚ)
    (h1 : code ≠ "RUN") (h2 : code ≠ "WLK") (h3 : code ≠ "SWM") :
    read_package code data = .error (.keyError (error_message_1 TRAIN_CLASS_repr)) := by
  simp [read_package, TRAIN_CLASS, List.lookup,
    beq_eq_false_iff_ne.mpr h1, beq_eq_false_iff_ne.mpr h2, beq_eq_false_iff_ne.mpr h3]

/-- C7 witness: the amended theorem applied at the unknown code `"XYZ"`. -/
theorem C7_witness :
    read_package "XYZ" [] = .error (.keyError (error_message_1 TRAIN_CLASS_repr)) :=
  C7_unknown_code "XYZ" [] (by decide) (by decide) (by decide)

set_option maxRecDepth 20000 in
/-- C8: for the sample package `("SWM", [720, 1, 80, 25, 40])` the constructed
record has distance `0.9936`, mean speed `1.0` and calories `336.0`, and the
rendered report contains the four formatted fragments
`Длительность: 1.000 ч.`, `Дистанция: 0.994 км`, `Ср. скорость: 1.000 км/ч`
and `Потрачено ккал: 336.000.`. -/
theorem C8_swm_end_to_end :
    read_package "SWM" [720, 1, 80, 25, 40] = .ok (.swimming 720 1 80 25 40)
    ∧ (Training.swimming 720 1 80 25 40).get_distance = 0.9936
    ∧ (Training.swimming 720 1 80 25 40).get_mean_speed = 1
    ∧ (Training.swimming 720 1 80 25 40).get_spent_calories = some 336
    ∧ ∃ msg, (Training.swimming 720 1 80 25 40).show_training_info.get_message = some msg
        ∧ "Длительность: 1.000 ч.".data <:+: msg.data
        ∧ "Дистанция: 0.994 км".data <:+: msg.data
        ∧ "Ср. скорость: 1.000 км/ч".data <:+: msg.data
        ∧ "Потрачено ккал: 336.000.".data <:+: msg.data := by
  have hdist : (Training.swimming 720 1 80 25 40).get_distance = 9936 / 10000 := by
    norm_num [Training.get_distance, Training.action, Training.LEN_STEP, Training.M_IN_KM]
  have hspeed : (Training.swimming 720 1 80 25 40).get_mean_speed = 1 := by
    norm_num [Training.get_mean_speed, Training.M_IN_KM]
  have hcal : (Training.swimming 720 1 80 25 40).get_spent_calories = some 336 := by
    norm_num [Training.get_spent_calories, Training.get_mean_speed, Training.M_IN_KM,
      Swimming.CALORIES_MEAN_SPEED_SHIFT, Swimming.CALORIES_WEIGHT_MULTIPLIER]
  have hmsg : (Training.swimming 720 1 80 25 40).show_training_info.get_message =
      some "Тип тренировки: Swimming; Длительность: 1.000 ч.; Дистанция: 0.994 км; Ср. скорость: 1.000 км/ч; Потрачено ккал: 336.000." := by
    have h1 : pyRound ((1 : ℚ) * 1000) = 1000 := by norm_num [pyRound]
    have h2 : pyRound ((9936 / 10000 : ℚ) * 1000) = 994 := by norm_num [pyRound]
    have h3 : pyRound ((336 : ℚ) * 1000) = 336000 := by norm_num [pyRound]
    simp only [Training.show_training_info, InfoMessage.get_message, Training.duration,
      Training.typeName, hdist, hspeed, hcal, Option.map_some']
    simp only [fmt3, h1, h2, h3]
    decide
  refine ⟨rfl, by rw [hdist]; norm_num, hspeed, hcal, _, hmsg, ?_, ?_, ?_, ?_⟩ <;> decide

/-- C9: on every concrete variant record the rendered report is the single
line of the fixed template, its type field the variant's class name
(`Running`, `SportsWalking` or `Swimming`), its numeric fields the duration
and the three computed metrics, each rendered by the 3-decimal-place
formatter (`threeDecimals` holds of each, and the line holds no newline). -/
theorem C9_report_template (a d w h cp lp : ℚ) :
    (∃ c msg, (Training.running a d w).get_spent_calories = some c
      ∧ (Training.running a d w).show_training_info.get_message = some msg
      ∧ msg = "Тип тренировки: Running; Длительность: " ++ fmt3 d
          ++ " ч.; Дистанция: " ++ fmt3 (Training.running a d w).get_distance
          ++ " км; Ср. скорость: " ++ fmt3 (Training.running a d w).get_mean_speed
          ++ " км/ч; Потрачено ккал: " ++ fmt3 c ++ "."
      ∧ '\n' ∉ msg.data
      ∧ threeDecimals (fmt3 d)
      ∧ threeDecimals (fmt3 (Training.running a d w).get_distance)
      ∧ threeDecimals (fmt3 (Training.running a d w).get_mean_speed)
      ∧ threeDecimals (fmt3 c))
    ∧ (∃ c msg, (Training.sportsWalking a d w h).get_spent_calories = some c
      ∧ (Training.sportsWalking a d w h).show_training_info.get_message = some msg
      ∧ msg = "Тип тренировки: SportsWalking; Длительность: " ++ fmt3 d
          ++ " ч.; Дистанция: " ++ fmt3 (Training.sportsWalking a d w h).get_distance
          ++ " км; Ср. скорость: " ++ fmt3 (Training.sportsWalking a d w h).get_mean_speed
          ++ " км/ч; Потрачено ккал: " ++ fmt3 c ++ "."
      ∧ '\n' ∉ msg.data
      ∧ threeDecimals (fmt3 d)
      ∧ threeDecimals (fmt3 (Training.sportsWalking a d w h).get_distance)
      ∧ threeDecimals (fmt3 (Training.sportsWalking a d w h).get_mean_speed)
      ∧ threeDecimals (fmt3 c))
    ∧ (∃ c msg, (Training.swimming a d w cp lp).get_spent_calories = some c
      ∧ (Training.swimming a d w cp lp).show_training_info.get_message = some msg
      ∧ msg = "Тип тренировки: Swimming; Длительность: " ++ fmt3 d
          ++ " ч.; Дистанция: " ++ fmt3 (Training.swimming a d w cp lp).get_distance
          ++ " км; Ср. скорость: " ++ fmt3 (Training.swimming a d w cp lp).get_mean_speed
          ++ " км/ч; Потрачено ккал: " ++ fmt3 c ++ "."
      ∧ '\n' ∉ msg.data
      ∧ threeDecimals (fmt3 d)
      ∧ threeDecimals (fmt3 (Training.swimming a d w cp lp).get_distance)
      ∧ threeDecimals (fmt3 (Training.swimming a d w cp lp).get_mean_speed)
      ∧ threeDecimals (fmt3 c)) := by
  refine ⟨?_, ?_, ?_⟩
  · have hm : ("Тип тренировки: " ++ "Running" ++ "; Длительность: " : String)
        = "Тип тренировки: Running; Длительность: " := by decide
    have h1 : (Training.running a d w).show_training_info.get_message
        = some ("Тип тренировки: " ++ "Running" ++ "; Длительность: " ++ fmt3 d
            ++ " ч.; Дистанция: " ++ fmt3 (Training.running a d w).get_distance
            ++ " км; Ср. скорость: " ++ fmt3 (Training.running a d w).get_mean_speed
            ++ " км/ч; Потрачено ккал: "
            ++ fmt3 ((Running.CALORIES_MEAN_SPEED_MULTIPLIER
                * (Training.running a d w).get_mean_speed + Running.CALORIES_MEAN_SPEED_SHIFT)
              * w / Training.M_IN_KM * d * Training.MIN_IN_H) ++ ".") := rfl
    have h2 := congrArg (fun s => s ++ fmt3 d
            ++ " ч.; Дистанция: " ++ fmt3 (Training.running a d w).get_distance
            ++ " км; Ср. скорость: " ++ fmt3 (Training.running a d w).get_mean_speed
            ++ " км/ч; Потрачено ккал: "
            ++ fmt3 ((Running.CALORIES_MEAN_SPEED_MULTIPLIER
                * (Training.running a d w).get_mean_speed + Running.CALORIES_MEAN_SPEED_SHIFT)
              * w / Training.M_IN_KM * d * Training.MIN_IN_H) ++ ".") hm
    exact ⟨_, _, rfl, h1.trans (congrArg some h2), rfl,
      msg_ne_newline _ (by decide) _ _ _ _,
      fmt3_threeDecimals _, fmt3_threeDecimals _, fmt3_threeDecimals _, fmt3_threeDecimals _⟩
  · have hm : ("Тип тренировки: " ++ "SportsWalking" ++ "; Длительность: " : String)
        = "Тип тренировки: SportsWalking; Длительность: " := by decide
    have h1 : (Training.sportsWalking a d w h).show_training_info.get_message
        = some ("Тип тренировки: " ++ "SportsWalking" ++ "; Длительность: " ++ fmt3 d
            ++ " ч.; Дистанция: " ++ fmt3 (Training.sportsWalking a d w h).get_distance
            ++ " км; Ср. скорость: " ++ fmt3 (Training.sportsWalking a d w h).get_mean_speed
            ++ " км/ч; Потрачено ккал: "
            ++ fmt3 ((SportsWalking.CALORIES_WEIGHT_MULTIPLIER * w
                + ((Training.sportsWalking a d w h).get_mean_speed
                    * SportsWalking.KMH_IN_MSEC) ^ 2
                  / (h / SportsWalking.CM_IN_M)
                  * SportsWalking.CALORIES_SPEED_HEIGHT_MULTIPLIER * w)
              * d * Training.MIN_IN_H) ++ ".") := rfl
    have h2 := congrArg (fun s => s ++ fmt3 d
            ++ " ч.; Дистанция: " ++ fmt3 (Training.sportsWalking a d w h).get_distance
            ++ " км; Ср. скорость: " ++ fmt3 (Training.sportsWalking a d w h).get_mean_speed
            ++ " км/ч; Потрачено ккал: "
            ++ fmt3 ((SportsWalking.CALORIES_WEIGHT_MULTIPLIER * w
                + ((Training.sportsWalking a d w h).get_mean_speed
                    * SportsWalking.KMH_IN_MSEC) ^ 2
                  / (h / SportsWalking.CM_IN_M)
                  * SportsWalking.CALORIES_SPEED_HEIGHT_MULTIPLIER * w)
              * d * Training.MIN_IN_H) ++ ".") hm
    exact ⟨_, _, rfl, h1.trans (congrArg some h2), rfl,
      msg_ne_newline _ (by decide) _ _ _ _,
      fmt3_threeDecimals _, fmt3_threeDecimals _, fmt3_threeDecimals _, fmt3_threeDecimals _⟩
  · have hm : ("Тип тренировки: " ++ "Swimming" ++ "; Длительность: " : String)
        = "Тип тренировки: Swimming; Длительность: " := by decide
    have h1 : (Training.swimming a d w cp lp).show_training_info.get_message
        = some ("Тип тренировки: " ++ "Swimming" ++ "; Длительность: " ++ fmt3 d
            ++ " ч.; Дистанция: " ++ fmt3 (Training.swimming a d w cp lp).get_distance
            ++ " км; Ср. скорость: " ++ fmt3 (Training.swimming a d w cp lp).get_mean_speed
            ++ " км/ч; Потрачено ккал: "
            ++ fmt3 (((Training.swimming a d w cp lp).get_mean_speed
                + Swimming.CALORIES_MEAN_SPEED_SHIFT)
              * Swimming.CALORIES_WEIGHT_MULTIPLIER * w * d) ++ ".") := rfl
    have h2 := congrArg (fun s => s ++ fmt3 d
            ++ " ч.; Дистанция: " ++ fmt3 (Training.swimming a d w cp lp).get_distance
            ++ " км; Ср. скорость: " ++ fmt3 (Training.swimming a d w cp lp).get_mean_speed
            ++ " км/ч; Потрачено ккал: "
            ++ fmt3 (((Training.swimming a d w cp lp).get_mean_speed
                + Swimming.CALORIES_MEAN_SPEED_SHIFT)
              * Swimming.CALORIES_WEIGHT_MULTIPLIER * w * d) ++ ".") hm
    exact ⟨_, _, rfl, h1.trans (congrArg some h2), rfl,
      msg_ne_newline _ (by decide) _ _ _ _,
      fmt3_threeDecimals _, fmt3_threeDecimals _, fmt3_threeDecimals _, fmt3_threeDecimals _⟩

/-- C10: the base `Training.get_spent_calories` is `pass`, i.e. it returns no
numeric value, so `show_training_info` on a base record yields an
`InfoMessage` whose `calories` field is not a number (and whose message
rendering consequently fails rather than produce text). -/
theorem C10_base_calories_none (a d w : ℚ) :
    (Training.base a d w).get_spent_calories = none
    ∧ ((Training.base a d w).show_training_info).calories = none
    ∧ ((Training.base a d w).show_training_info).get_message = none :=
  ⟨rfl, rfl, rfl⟩

end Homework
